import Mathlib

/-!
Shallow embedding of `train_duq_cifar.py`, the DUQ CIFAR-10 training script.

Pure computations of the script (the gradient-penalty formula, one-hot encoding,
binary cross-entropy, the epoch-hook schedule, the dataset split, the loader
configuration and the divisibility assertions) are translated into Lean
functions.  The autodiff/optimizer substrate (backbone forward pass, parameter
gradients, SGD update, centroid EMA update) is abstracted as a record of opaque
function parameters, exactly at the interface boundary the script uses it.
Stateful code is modelled by explicit state passing together with event traces
recording the order of side effects.
-/

namespace DUQ

/-! ### Gradient penalty: `calc_gradients_input` and `calc_gradient_penalty` -/

/-- Error message of the autodiff substrate: `torch.autograd.grad` raises a
RuntimeError when one of the `inputs` does not require grad.  The script calls
it with `inputs=x`, so a call while `x` does not track gradients fails. -/
def autograd_err_msg : String := "One of the differentiated Tensors does not require grad"

/-- Per-example L2 norm, `gradients.norm(2, dim=1)` applied to one row. -/
noncomputable def l2_norm (g : List ℝ) : ℝ := Real.sqrt ((g.map (fun a => a ^ 2)).sum)

/-- `((grad_norm - 1) ** 2).mean()`: the mean of the two-sided penalty over the
rows (the examples) of `gs`. -/
noncomputable def penalty_of_grads (gs : List (List ℝ)) : ℝ :=
  ((gs.map (fun g => (l2_norm g - 1) ^ 2)).sum) / gs.length

/-- `calc_gradients_input` (lines 76-86): `torch.autograd.grad(outputs=y_pred,
inputs=x, grad_outputs=ones, create_graph=True)[0]` followed by
`gradients.flatten(start_dim=1)`.  The raw per-example gradient delivered by the
substrate is a nested list; flattening from dimension 1 joins the inner
dimensions per example.  If `x` does not require grad the substrate raises. -/
def calc_gradients_input (x_requires_grad : Bool) (raw : List (List (List ℝ))) :
    Except String (List (List ℝ)) :=
  if x_requires_grad then Except.ok (raw.map List.flatten) else Except.error autograd_err_msg

/-- `calc_gradient_penalty` (lines 88-97): flatten the input gradients, take the
per-example L2 norm, and return the mean of `(‖g‖₂ − 1)²`. -/
noncomputable def calc_gradient_penalty (x_requires_grad : Bool)
    (raw : List (List (List ℝ))) : Except String ℝ :=
  (calc_gradients_input x_requires_grad raw).map penalty_of_grads

/-! ### Datasets, subsets and the train/validation split -/

/-- A torchvision-style dataset: item access applies the dataset's own
`transform` to the stored raw item. -/
structure TDataset (α : Type) where
  size : ℕ
  raw : ℕ → α
  transform : α → α

def TDataset.getItem {α : Type} (d : TDataset α) (i : ℕ) : α := d.transform (d.raw i)

/-- `torch.utils.data.Subset`: a base dataset plus an index list; item access
delegates to the base dataset.  `attr_transform` models a `transform` attribute
assigned onto the wrapper object (line 54 of the script): Python stores the
attribute, but `Subset.__getitem__` never consults it. -/
structure TSubset (α : Type) where
  dataset : TDataset α
  indices : List ℕ
  attr_transform : Option (α → α)

def TSubset.getItem {α : Type} (s : TSubset α) (i : ℕ) : α :=
  s.dataset.getItem (s.indices.getD i 0)

/-- A data source in the script: a whole dataset or a `Subset` of one. -/
inductive DSource (α : Type) where
  | base (d : TDataset α)
  | sub (s : TSubset α)

def DSource.getItem {α : Type} : DSource α → ℕ → α
  | DSource.base d, i => d.getItem i
  | DSource.sub s, i => s.getItem i

/-- The index set a data source draws from: a whole dataset uses all its
indices, a subset uses its index list. -/
def DSource.indexList {α : Type} : DSource α → List ℕ
  | DSource.base d => List.range d.size
  | DSource.sub s => s.indices

/-- Lines 42-56 of the script: with `final_model` set, train on the whole
training dataset and use the test dataset as validation set; otherwise split
the shuffled index list `idx` at `int(len(dataset) * 0.8)` into a training
subset and a validation subset, then assign the test transform onto the
validation subset object.  Returns `(train_dataset, val_dataset)`. -/
def make_train_val {α : Type} (final_model : Bool) (dataset test_dataset : TDataset α)
    (idx : List ℕ) : DSource α × DSource α :=
  if final_model then
    (DSource.base dataset, DSource.base test_dataset)
  else
    let val_size := 8 * dataset.size / 10
    let train_dataset := TSubset.mk dataset (idx.take val_size) none
    let val_dataset := TSubset.mk dataset (idx.drop val_size) none
    let val_dataset2 := { val_dataset with attr_transform := some test_dataset.transform }
    (DSource.sub train_dataset, DSource.sub val_dataset2)

/-! ### Loader configuration and the divisibility assertions -/

/-- Line 174: `test_batch_size = 200`, the constant batch size of the
validation and test loaders. -/
def test_batch_size : ℕ := 200

/-- The message of the two assertions on lines 175-176. -/
def averaging_msg : String := "incorrect result averaging"

structure LoaderConfig where
  train_bs : ℕ
  val_bs : ℕ
  test_bs : ℕ

/-- Batch sizes of the three `DataLoader`s (lines 170-184): the training loader
uses the configured `batch_size`, the validation and test loaders use the
constant `test_batch_size`. -/
def make_loaders (batch_size : ℕ) : LoaderConfig :=
  { train_bs := batch_size, val_bs := test_batch_size, test_bs := test_batch_size }

/-- Number of batches the training loader yields: `drop_last=True` (line 171)
keeps only the full batches. -/
def train_loader_num_batches (n bs : ℕ) : ℕ := n / bs

inductive RunEvent where
  | trainEpoch (e : ℕ)
  | finalTestEval

/-- The tail of `main` (lines 174-237): the two divisibility assertions on the
validation and test set sizes, then `trainer.run` for `epochs` epochs, then the
final test evaluation.  A failing assertion aborts before any training epoch. -/
def main_run (val_len test_len epochs : ℕ) : Except String (List RunEvent) :=
  if val_len % test_batch_size = 0 then
    if test_len % test_batch_size = 0 then
      Except.ok (((List.range' 1 epochs).map RunEvent.trainEpoch) ++ [RunEvent.finalTestEval])
    else Except.error averaging_msg
  else Except.error averaging_msg

/-! ### Architecture selection -/

/-- `argparse` choices for `--architecture` (lines 248-253). -/
def architecture_choices : List String := ["ResNet18", "WRN"]

/-- The fatal parse error `argparse` prints for a value outside `choices`. -/
def invalid_choice_msg : String := "argument --architecture: invalid choice"

/-- CLI parsing of the architecture: any value outside `choices` is rejected at
parse time with a fatal, user-visible error. -/
def parse_architecture (a : String) : Except String String :=
  if a ∈ architecture_choices then Except.ok a else Except.error invalid_choice_msg

inductive Resource where
  | writer
  | datasets
  | model

/-- The program entry: parse the CLI architecture argument, then run `main`,
which allocates the writer, the datasets and the model (lines 37-66).  On a
parse failure `main` is never entered, so nothing is allocated. -/
def program_resources (a : String) : Except String (List Resource) :=
  match parse_architecture a with
  | Except.ok _ => Except.ok [Resource.writer, Resource.datasets, Resource.model]
  | Except.error e => Except.error e

/-! ### The training step -/

/-- `F.one_hot(y, num_classes).float()` for one label. -/
noncomputable def one_hot (num_classes label : ℕ) : List ℝ :=
  (List.range num_classes).map (fun i => if i = label then (1 : ℝ) else 0)

/-- One element of `F.binary_cross_entropy`: prediction `p`, target `t`. -/
noncomputable def bce_elem (p t : ℝ) : ℝ := -(t * Real.log p + (1 - t) * Real.log (1 - p))

/-- `F.binary_cross_entropy(y_pred, y, reduction="mean")`: the mean of the
elementwise binary cross-entropy over every element of the batch. -/
noncomputable def binary_cross_entropy (pred target : List (List ℝ)) : ℝ :=
  let elems := (List.zip pred target).flatMap
    (fun rt => (List.zip rt.1 rt.2).map (fun pt => bce_elem pt.1 pt.2))
  elems.sum / elems.length

/-- The mutable state the training step touches: model parameters, optimizer
state (momentum buffers), centroid EMA state. -/
structure TrainState (P O E : Type) where
  params : P
  opt : O
  ema : E

/-- The autodiff/optimizer substrate, at the interface the script uses it:
`forward` is the model's forward pass producing per-class scores;
`raw_input_grads` is `torch.autograd.grad` of `sum(y_pred)` with respect to the
input, per example and unflattened; `backward` produces the parameter gradients
of the composite loss; `sgd_step` applies one SGD-with-momentum update;
`update_embeddings` is the centroid EMA update, computed with the current
parameters. -/
structure Substrate (I P O E G : Type) where
  forward : P → I → List (List ℝ)
  raw_input_grads : P → I → List (List (List ℝ))
  backward : P → I → List ℕ → G
  sgd_step : P → O → G → P × O
  update_embeddings : P → E → I → List (List ℝ) → E

inductive StepEvent where
  | zeroGrad
  | enableInputGrad
  | forwardPass
  | backwardPass
  | optimStep
  | disableInputGrad
  | noGradBegin
  | emaUpdate
  | noGradEnd
  deriving DecidableEq, BEq

/-- The order of side effects in one call of `step` (lines 99-127). -/
def step_trace : List StepEvent :=
  [StepEvent.zeroGrad, StepEvent.enableInputGrad, StepEvent.forwardPass,
    StepEvent.backwardPass, StepEvent.optimStep, StepEvent.disableInputGrad,
    StepEvent.noGradBegin, StepEvent.emaUpdate, StepEvent.noGradEnd]

/-- The training step `step` (lines 99-127): zero the gradients, enable
gradient tracking on `x`, forward pass, one-hot encode `y`, BCE with mean
reduction, gradient penalty, composite loss `bce + l_gradient_penalty * gp`,
backward pass, one optimizer step, disable gradient tracking on `x`, and under
`torch.no_grad()` update the centroid EMA state with the one-hot targets (using
the just-updated parameters).  Returns the new state, the scalar triple
`(loss, bce, gp)`, and the event trace. -/
noncomputable def step {I P O E G : Type} (σ : Substrate I P O E G) (num_classes : ℕ)
    (l_gradient_penalty : ℝ) (st : TrainState P O E) (x : I) (y : List ℕ) :
    TrainState P O E × (ℝ × ℝ × ℝ) × List StepEvent :=
  let y_pred := σ.forward st.params x
  let y_oh := y.map (one_hot num_classes)
  let bce := binary_cross_entropy y_pred y_oh
  let gp := ((calc_gradient_penalty true (σ.raw_input_grads st.params x)).toOption).getD 0
  let loss := bce + l_gradient_penalty * gp
  let g := σ.backward st.params x y
  let po := σ.sgd_step st.params st.opt g
  let ema := σ.update_embeddings po.1 st.ema x y_oh
  ({ params := po.1, opt := po.2, ema := ema }, (loss, bce, gp), step_trace)

/-! ### The epoch hook -/

/-- Line 200: the OOD branch guard `trainer.state.epoch > 195`. -/
def ood_branch_fires (epoch : ℕ) : Bool := 195 < epoch

/-- The three aggregated outputs of the evaluator (lines 154-163): accuracy,
BCE, gradient penalty.  No loss component is tracked by the evaluator. -/
structure EvalMetrics where
  accuracy : ℝ
  bce : ℝ
  gradient_penalty : ℝ

/-- The aggregated trainer metrics read by the hook (lines 188-191). -/
structure TrainMetrics where
  loss : ℝ
  bce : ℝ
  gradient_penalty : ℝ

inductive HookEvent where
  | logTrainLoss (v : ℝ)
  | oodTestEval
  | oodValEval
  | runEvaluatorVal
  | logValidLoss (v : ℝ)
  | logValidBce (v : ℝ)
  | logValidGp (v : ℝ)
  | logValidAcc (v : ℝ)
  | schedStep

/-- `log_results`, the `EPOCH_COMPLETED` hook (lines 186-233): log the training
loss; if the epoch exceeds 195 run the two OOD evaluations; run the evaluator
on the validation loader; log the validation metrics with the loss recomputed
from the evaluator's aggregated components as
`bce + l_gradient_penalty * gradient_penalty`; finally advance the scheduler.
The scheduler is modelled by its epoch counter. -/
noncomputable def log_results (l_gradient_penalty : ℝ) (epoch : ℕ) (tm : TrainMetrics)
    (em : EvalMetrics) (sched_epochs : ℕ) : List HookEvent × ℕ :=
  let ood := if ood_branch_fires epoch then [HookEvent.oodTestEval, HookEvent.oodValEval] else []
  let valid_loss := em.bce + l_gradient_penalty * em.gradient_penalty
  ([HookEvent.logTrainLoss tm.loss] ++ ood ++
      [HookEvent.runEvaluatorVal, HookEvent.logValidLoss valid_loss,
        HookEvent.logValidBce em.bce, HookEvent.logValidGp em.gradient_penalty,
        HookEvent.logValidAcc em.accuracy, HookEvent.schedStep],
    sched_epochs + 1)

/-! ### Concrete instances used in closed theorems -/

/-- A concrete CIFAR-style training dataset: raw item `i` is the integer `i`,
the training-time augmentation is modelled by the transform `a + 1`. -/
def dC1 : TDataset ℤ := { size := 10, raw := fun i => (i : ℤ), transform := fun a => a + 1 }

/-- A concrete test dataset over the same raw items, whose test-time transform
`3 * a` is distinguishable from the training-time one. -/
def tC1 : TDataset ℤ := { size := 10, raw := fun i => (i : ℤ), transform := fun a => 3 * a }

/-- A concrete dataset for the split witness. -/
def dW : TDataset ℕ := { size := 10, raw := fun i => i, transform := fun a => a }

/-- A concrete test dataset for the split witness. -/
def tW : TDataset ℕ := { size := 10, raw := fun i => i, transform := fun a => a }

/-- A concrete unsupported architecture string. -/
def bad_arch : String := "VGG"

/-! ### Helper lemmas -/

/-- A list of nonnegative reals sums to zero exactly when every entry is zero. -/
theorem list_sum_eq_zero_iff_of_nonneg (l : List ℝ) (h : ∀ x ∈ l, 0 ≤ x) :
    l.sum = 0 ↔ ∀ x ∈ l, x = 0 := by
  induction l with
  | nil => simp
  | cons a l ih =>
    have ha : 0 ≤ a := h a (by simp)
    have hl : ∀ x ∈ l, 0 ≤ x := fun x hx => h x (List.mem_cons_of_mem _ hx)
    have hsum : 0 ≤ l.sum := List.sum_nonneg hl
    simp only [List.sum_cons, List.mem_cons]
    constructor
    · intro h0
      have ha0 : a = 0 := by linarith [(ih hl).symm]
      have hs0 : l.sum = 0 := by linarith
      intro x hx
      rcases hx with hx | hx
      · exact hx ▸ ha0
      · exact (ih hl).mp hs0 x hx
    · intro h0
      have ha0 : a = 0 := h0 a (Or.inl rfl)
      have hs0 : l.sum = 0 := (ih hl).mpr (fun x hx => h0 x (Or.inr hx))
      rw [ha0, hs0, add_zero]

/-- Splitting a permutation of `range n` at any point yields disjoint parts
whose union is `range n`. -/
theorem perm_range_take_drop (n k : ℕ) (idx : List ℕ) (h : idx.Perm (List.range n)) :
    (∀ a ∈ idx.take k, a ∉ idx.drop k)
    ∧ ∀ a, a ∈ List.range n ↔ a ∈ idx.take k ∨ a ∈ idx.drop k := by
  have hnd : idx.Nodup := h.nodup_iff.mpr (List.nodup_range n)
  have hsplit : idx.take k ++ idx.drop k = idx := List.take_append_drop k idx
  have hnd2 : (idx.take k ++ idx.drop k).Nodup := by rw [hsplit]; exact hnd
  rw [List.nodup_append] at hnd2
  refine ⟨fun a ha hb => hnd2.2.2 ha hb, fun a => ?_⟩
  constructor
  · intro ha
    have hmem : a ∈ idx := h.mem_iff.mpr ha
    rw [← hsplit] at hmem
    exact List.mem_append.mp hmem
  · intro hor
    have hmem : a ∈ idx.take k ++ idx.drop k := List.mem_append.mpr hor
    rw [hsplit] at hmem
    exact h.mem_iff.mp hmem

/-! ### Claim theorems -/

/-- C1: the claim says every validation example in non-final-model mode is
preprocessed with the test-time transform.  The code contradicts this: item
access on the validation `Subset` delegates to the underlying training dataset,
which applies its own training-time augmentation; the `transform` attribute
assigned onto the `Subset` wrapper is never consulted.  Concretely, with raw
item 8, training transform `a + 1` and test transform `3 * a`, the fetched
validation item is `9` (training augmentation) while test-time preprocessing
would give `24`. -/
theorem duq_c1_val_transform :
    (∀ (α : Type) (d t : TDataset α) (idx : List ℕ) (i : ℕ),
        (make_train_val false d t idx).2.getItem i =
          d.transform (d.raw ((idx.drop (8 * d.size / 10)).getD i 0)))
    ∧ (make_train_val false dC1 tC1 (List.range 10)).2.getItem 0 = 9
    ∧ tC1.transform (dC1.raw 8) = 24
    ∧ ((9 : ℤ) ≠ 24) := by
  refine ⟨fun α d t idx i => rfl, by decide, by decide, by decide⟩

/-- C2: one call of the training step computes the composite loss as binary
cross-entropy between the one-hot labels and the per-class scores (mean
reduction) plus `l_gradient_penalty` times the gradient penalty, applies
exactly one optimizer step, and only afterwards, under the no-gradient context
with input gradient tracking disabled, updates the centroid EMA state (with the
post-step parameters); parameters, optimizer state and EMA state each result
from exactly one application of their update, and the step returns the triple
`(loss, bce, gp)`. -/
theorem duq_c2_train_step {I P O E G : Type} (σ : Substrate I P O E G) (num_classes : ℕ)
    (l_gradient_penalty : ℝ) (st : TrainState P O E) (x : I) (y : List ℕ) :
    (step σ num_classes l_gradient_penalty st x y).2.1 =
      (binary_cross_entropy (σ.forward st.params x) (y.map (one_hot num_classes))
          + l_gradient_penalty *
            penalty_of_grads ((σ.raw_input_grads st.params x).map List.flatten),
        binary_cross_entropy (σ.forward st.params x) (y.map (one_hot num_classes)),
        penalty_of_grads ((σ.raw_input_grads st.params x).map List.flatten))
    ∧ (step σ num_classes l_gradient_penalty st x y).1.params =
        (σ.sgd_step st.params st.opt (σ.backward st.params x y)).1
    ∧ (step σ num_classes l_gradient_penalty st x y).1.opt =
        (σ.sgd_step st.params st.opt (σ.backward st.params x y)).2
    ∧ (step σ num_classes l_gradient_penalty st x y).1.ema =
        σ.update_embeddings (σ.sgd_step st.params st.opt (σ.backward st.params x y)).1
          st.ema x (y.map (one_hot num_classes))
    ∧ (step σ num_classes l_gradient_penalty st x y).2.2 = step_trace
    ∧ step_trace.count StepEvent.optimStep = 1
    ∧ step_trace.count StepEvent.emaUpdate = 1
    ∧ step_trace.indexOf StepEvent.optimStep < step_trace.indexOf StepEvent.emaUpdate
    ∧ step_trace.indexOf StepEvent.disableInputGrad < step_trace.indexOf StepEvent.emaUpdate
    ∧ step_trace.indexOf StepEvent.noGradBegin < step_trace.indexOf StepEvent.emaUpdate
    ∧ step_trace.indexOf StepEvent.emaUpdate < step_trace.indexOf StepEvent.noGradEnd := by
  refine ⟨rfl, rfl, rfl, rfl, rfl, by decide, by decide, by decide, by decide, by decide,
    by decide⟩

/-- C3: with gradient tracking enabled, the gradient penalty returned by
`calc_gradient_penalty` on a nonempty batch is the mean over examples of
`(‖g‖₂ − 1)²` for the flattened per-example gradients; it is nonnegative, and
it is zero exactly when every example's gradient norm is exactly 1. -/
theorem duq_c3_gradient_penalty (raw : List (List (List ℝ))) (h : raw ≠ []) :
    calc_gradient_penalty true raw = Except.ok (penalty_of_grads (raw.map List.flatten))
    ∧ 0 ≤ penalty_of_grads (raw.map List.flatten)
    ∧ (penalty_of_grads (raw.map List.flatten) = 0 ↔
        ∀ g ∈ raw.map List.flatten, l2_norm g = 1) := by
  have hterms : ∀ x ∈ (raw.map List.flatten).map (fun g => (l2_norm g - 1) ^ 2), 0 ≤ x := by
    intro x hx
    obtain ⟨g, hg, rfl⟩ := List.mem_map.mp hx
    exact sq_nonneg _
  refine ⟨rfl, ?_, ?_⟩
  · exact div_nonneg (List.sum_nonneg hterms) (Nat.cast_nonneg _)
  · have hlen : (((raw.map List.flatten).length : ℝ)) ≠ 0 := by
      have hne : (raw.map List.flatten).length ≠ 0 := by
        simp only [List.length_map]
        exact fun hh => h (List.length_eq_zero.mp hh)
      exact Nat.cast_ne_zero.mpr hne
    unfold penalty_of_grads
    rw [div_eq_zero_iff, or_iff_left hlen,
      list_sum_eq_zero_iff_of_nonneg _ hterms]
    constructor
    · intro hz g hg
      have h0 := hz _ (List.mem_map_of_mem _ hg)
      exact sub_eq_zero.mp (sq_eq_zero_iff.mp h0)
    · intro h1 x hx
      obtain ⟨g, hg, rfl⟩ := List.mem_map.mp hx
      rw [h1 g hg]
      ring

/-- Witness for C3 at the concrete one-example batch `[[[1]]]`. -/
theorem duq_c3_gradient_penalty_witness :
    (([[[(1 : ℝ)]]] : List (List (List ℝ))) ≠ [])
    ∧ (calc_gradient_penalty true [[[(1 : ℝ)]]]
          = Except.ok (penalty_of_grads ([[[(1 : ℝ)]]].map List.flatten))
      ∧ 0 ≤ penalty_of_grads ([[[(1 : ℝ)]]].map List.flatten)
      ∧ (penalty_of_grads ([[[(1 : ℝ)]]].map List.flatten) = 0 ↔
          ∀ g ∈ [[[(1 : ℝ)]]].map List.flatten, l2_norm g = 1)) :=
  ⟨List.cons_ne_nil _ _, duq_c3_gradient_penalty _ (List.cons_ne_nil _ _)⟩

/-- C4: with `epochs = 200` the OOD branch guard fires exactly at epochs 196
through 200 of the completed epochs 1..200, and at no earlier epoch; in
general it fires exactly at epochs at least 196. -/
theorem duq_c4_ood_schedule :
    ((List.range' 1 200).filter ood_branch_fires = [196, 197, 198, 199, 200])
    ∧ (∀ e, ood_branch_fires e = true ↔ 196 ≤ e) := by
  refine ⟨by decide, fun e => ?_⟩
  simp only [ood_branch_fires, decide_eq_true_eq]
  omega

/-- C5: in non-final-model mode the training and validation index sets split a
permutation of the full index range, so they are disjoint and their union is
the full training index set; in final-model mode the validation set is exactly
the test dataset. -/
theorem duq_c5_split {α : Type} (d t : TDataset α) (idx : List ℕ)
    (h : idx.Perm (List.range d.size)) :
    (∀ a ∈ (make_train_val false d t idx).1.indexList,
        a ∉ (make_train_val false d t idx).2.indexList)
    ∧ (∀ a, a ∈ List.range d.size ↔
        a ∈ (make_train_val false d t idx).1.indexList ∨
          a ∈ (make_train_val false d t idx).2.indexList)
    ∧ (make_train_val true d t idx).2 = DSource.base t := by
  obtain ⟨h1, h2⟩ := perm_range_take_drop d.size (8 * d.size / 10) idx h
  exact ⟨h1, h2, rfl⟩

/-- Witness for C5 with the identity permutation of `range 10`. -/
theorem duq_c5_split_witness :
    ((List.range 10).Perm (List.range dW.size))
    ∧ ((∀ a ∈ (make_train_val false dW tW (List.range 10)).1.indexList,
          a ∉ (make_train_val false dW tW (List.range 10)).2.indexList)
      ∧ (∀ a, a ∈ List.range dW.size ↔
          a ∈ (make_train_val false dW tW (List.range 10)).1.indexList ∨
            a ∈ (make_train_val false dW tW (List.range 10)).2.indexList)
      ∧ (make_train_val true dW tW (List.range 10)).2 = DSource.base tW) :=
  ⟨List.Perm.refl _, duq_c5_split dW tW (List.range 10) (List.Perm.refl _)⟩

/-- C6: the epoch hook, after the optional OOD branch (preceded only by the
training-loss logging and OOD events), runs the evaluator on the validation
split, logs the validation loss recomputed from the evaluator's aggregated
components as `bce + l_gradient_penalty * gradient_penalty`, and only after all
logging advances the scheduler, which is the final action and increments the
scheduler epoch counter by exactly one. -/
theorem duq_c6_epoch_hook (l_gradient_penalty : ℝ) (epoch : ℕ) (tm : TrainMetrics)
    (em : EvalMetrics) (sched_epochs : ℕ) :
    (∃ pre : List HookEvent,
        (log_results l_gradient_penalty epoch tm em sched_epochs).1 =
          pre ++ [HookEvent.runEvaluatorVal,
            HookEvent.logValidLoss (em.bce + l_gradient_penalty * em.gradient_penalty),
            HookEvent.logValidBce em.bce, HookEvent.logValidGp em.gradient_penalty,
            HookEvent.logValidAcc em.accuracy, HookEvent.schedStep]
        ∧ ∀ ev ∈ pre, ev = HookEvent.logTrainLoss tm.loss ∨ ev = HookEvent.oodTestEval ∨
            ev = HookEvent.oodValEval)
    ∧ (log_results l_gradient_penalty epoch tm em sched_epochs).2 = sched_epochs + 1 := by
  refine ⟨?_, rfl⟩
  cases hb : ood_branch_fires epoch with
  | false =>
    refine ⟨[HookEvent.logTrainLoss tm.loss], ?_, ?_⟩
    · simp [log_results, hb]
    · intro ev hev
      simp only [List.mem_singleton] at hev
      exact Or.inl hev
  | true =>
    refine ⟨[HookEvent.logTrainLoss tm.loss, HookEvent.oodTestEval, HookEvent.oodValEval],
      ?_, ?_⟩
    · simp [log_results, hb]
    · intro ev hev
      simp only [List.mem_cons, List.mem_singleton, List.not_mem_nil, or_false] at hev
      rcases hev with h1 | h1 | h1
      · exact Or.inl h1
      · exact Or.inr (Or.inl h1)
      · exact Or.inr (Or.inr h1)

/-- C7: if the validation or test set size is not divisible by the evaluation
batch size, the run aborts with the assertion message before any training
epoch; the training loader instead yields only the `n / bs` full batches and
silently drops the `n % bs < bs` trailing examples. -/
theorem duq_c7_divisibility (val_len test_len epochs n bs : ℕ)
    (h : ¬ (val_len % test_batch_size = 0 ∧ test_len % test_batch_size = 0))
    (hbs : 0 < bs) :
    main_run val_len test_len epochs = Except.error averaging_msg
    ∧ bs * train_loader_num_batches n bs + n % bs = n
    ∧ n % bs < bs := by
  refine ⟨?_, Nat.div_add_mod n bs, Nat.mod_lt n hbs⟩
  by_cases h1 : val_len % test_batch_size = 0
  · by_cases h2 : test_len % test_batch_size = 0
    · exact absurd ⟨h1, h2⟩ h
    · simp [main_run, h1, h2]
  · simp [main_run, h1]

/-- Witness for C7: validation size 100 fails the divisibility check, and a
training set of 5 with batch size 2 drops one trailing example. -/
theorem duq_c7_divisibility_witness :
    (¬ ((100 : ℕ) % test_batch_size = 0 ∧ (200 : ℕ) % test_batch_size = 0))
    ∧ (0 < 2)
    ∧ (main_run 100 200 1 = Except.error averaging_msg
      ∧ 2 * train_loader_num_batches 5 2 + 5 % 2 = 5
      ∧ 5 % 2 < 2) :=
  ⟨by decide, by decide, duq_c7_divisibility 100 200 1 5 2 (by decide) (by decide)⟩

/-- C8: invoking the gradient-penalty computation while the input does not
track gradients fails immediately with the substrate error; it never returns a
value, in particular it never silently returns zero. -/
theorem duq_c8_requires_grad (raw : List (List (List ℝ))) :
    calc_gradients_input false raw = Except.error autograd_err_msg
    ∧ calc_gradient_penalty false raw = Except.error autograd_err_msg
    ∧ ∀ v : ℝ, calc_gradient_penalty false raw ≠ Except.ok v := by
  refine ⟨rfl, rfl, fun v => ?_⟩
  simp [calc_gradient_penalty, calc_gradients_input, Except.map]

/-- C9: an architecture outside the supported choices is rejected by the CLI
parser with a fatal, user-visible error, and the program allocates no training
resources (no writer, datasets or model). -/
theorem duq_c9_architecture (a : String) (h : a ∉ architecture_choices) :
    program_resources a = Except.error invalid_choice_msg
    ∧ ∀ rs : List Resource, program_resources a ≠ Except.ok rs := by
  have hp : parse_architecture a = Except.error invalid_choice_msg := by
    simp [parse_architecture, h]
  refine ⟨?_, fun rs => ?_⟩ <;> simp [program_resources, hp]

/-- Witness for C9 at the concrete unsupported architecture string. -/
theorem duq_c9_architecture_witness :
    (bad_arch ∉ architecture_choices)
    ∧ (program_resources bad_arch = Except.error invalid_choice_msg
      ∧ ∀ rs : List Resource, program_resources bad_arch ≠ Except.ok rs) :=
  ⟨by decide, duq_c9_architecture bad_arch (by decide)⟩

/-- C10: the validation and test loaders use the constant batch size 200 for
every configured training `batch_size`, which only affects the training loader,
and the divisibility assertions pass exactly when both the validation and the
test set sizes are divisible by 200. -/
theorem duq_c10_eval_batch_size (batch_size val_len test_len epochs : ℕ) :
    (make_loaders batch_size).val_bs = 200
    ∧ (make_loaders batch_size).test_bs = 200
    ∧ (make_loaders batch_size).train_bs = batch_size
    ∧ ((∃ evs, main_run val_len test_len epochs = Except.ok evs) ↔
        (val_len % 200 = 0 ∧ test_len % 200 = 0)) := by
  refine ⟨rfl, rfl, rfl, ?_⟩
  by_cases h1 : val_len % 200 = 0 <;> by_cases h2 : test_len % 200 = 0 <;>
    simp [main_run, test_batch_size, h1, h2]

end DUQ
